import Mathlib

/-!
# Intermediate certificate profile and the ssh check-host action

A shallow embedding of `crypto/x509util/intermediateProfile.go` and of
`command/ssh/checkHost.go`.

Conventions of the embedding:

* Go pointers that the code dereferences (`csr`, `iss`) are taken non-nil and are
  modelled by the value they point to.  An interface value that the code compares
  with `nil` (`csr.PublicKey`, the loaded identity) is an `Option`.
* A Go `error` is modelled by its message; `(T, error)` results are `Except GoError T`.
* Calls that leave the two source files (the clock, `newProfile`, `WithPublicKey`,
  the CA client, ...) are parameters of the embedded functions.  Those that can
  read or change anything outside their arguments thread an explicit world `W`, so
  that "this step was never reached" is the statement that the world is returned
  untouched.
* `time.Duration` is a signed 64-bit nanosecond count; `time.Time` is modelled by
  its wall-clock reading (signed 64-bit seconds plus nanoseconds within the
  second), whose second count saturates when an addition overflows.  The
  monotonic reading and the location are not modelled.
-/

namespace X509util

/-! ## Machine integers and the standard-library types used by the templates -/

/-- Two-complement wrap of an integer into the signed 64-bit range. -/
def wrapInt64 (x : Int) : Int := (x + 2 ^ 63) % 2 ^ 64 - 2 ^ 63

/-- Largest signed 64-bit value. -/
def maxInt64 : Int := 2 ^ 63 - 1

/-- Smallest signed 64-bit value. -/
def minInt64 : Int := -(2 ^ 63)

/-- Membership in the signed 64-bit range. -/
def inInt64 (x : Int) : Prop := minInt64 ≤ x ∧ x ≤ maxInt64

instance (x : Int) : Decidable (inInt64 x) := by
  unfold inInt64; exact inferInstance

/-- Go `time.Duration`: nanoseconds, signed 64 bit. -/
abbrev Duration := Int

/-- Go `time.Nanosecond`. -/
def Nanosecond : Duration := 1

/-- Go `time.Second`. -/
def Second : Duration := 1000000000 * Nanosecond

/-- Go `time.Hour` (60 minutes of 60 seconds). -/
def Hour : Duration := 60 * (60 * Second)

/-- Product of two durations in the 64-bit duration type. -/
def Duration.mul (a b : Duration) : Duration := wrapInt64 (a * b)

/-- Wall-clock reading of a Go `time.Time`: seconds since the epoch of the
representation (signed 64 bit) and nanoseconds within that second. -/
structure Time where
  sec : Int
  nsec : Int
  deriving DecidableEq, Repr

/-- Representation invariant of `Time`. -/
def Time.WellFormed (t : Time) : Prop :=
  inInt64 t.sec ∧ 0 ≤ t.nsec ∧ t.nsec < 1000000000

instance (t : Time) : Decidable t.WellFormed := by
  unfold Time.WellFormed; exact inferInstance

/-- Go `Time.addSec` on the second count: the 64-bit sum, replaced by the extreme
second count of the same sign when the sum overflows. -/
def Time.addSec (sec : Int) (d : Int) : Int :=
  let sum := wrapInt64 (sec + d)
  if decide (sum > sec) = decide (d > 0) then sum
  else if d > 0 then 2 ^ 63 - 1
  else -(2 ^ 63 - 1)

/-- Go `Time.Add`: split the duration into whole seconds and nanoseconds
(truncating division), carry the nanoseconds, add the seconds with `addSec`. -/
def Time.Add (t : Time) (d : Duration) : Time :=
  let dsec := Int.tdiv d 1000000000
  let nsec := t.nsec + Int.tmod d 1000000000
  if nsec ≥ 1000000000 then
    { sec := Time.addSec t.sec (dsec + 1), nsec := nsec - 1000000000 }
  else if nsec < 0 then
    { sec := Time.addSec t.sec (dsec - 1), nsec := nsec + 1000000000 }
  else
    { sec := Time.addSec t.sec dsec, nsec := nsec }

/-- Go `Time.After`. -/
def Time.After (t u : Time) : Bool :=
  decide (t.sec > u.sec) || (decide (t.sec = u.sec) && decide (t.nsec > u.nsec))

/-- Go `Time.Before`. -/
def Time.Before (t u : Time) : Bool :=
  decide (t.sec < u.sec) || (decide (t.sec = u.sec) && decide (t.nsec < u.nsec))

/-- Go `Time.Sub`: the difference in 64-bit nanoseconds, saturated to the extreme
durations when it is not representable. -/
def Time.Sub (t u : Time) : Duration :=
  let d := wrapInt64 (wrapInt64 (wrapInt64 (t.sec - u.sec) * Second) + (t.nsec - u.nsec))
  if u.Add d = t then d
  else if t.Before u then minInt64
  else maxInt64

/-- Go `pkix.AttributeTypeAndValue`; the value is kept as text. -/
structure AttributeTypeAndValue where
  type : List Int
  value : String
  deriving DecidableEq, Repr

/-- Go `pkix.Name`. -/
structure Name where
  Country : List String := []
  Organization : List String := []
  OrganizationalUnit : List String := []
  Locality : List String := []
  Province : List String := []
  StreetAddress : List String := []
  PostalCode : List String := []
  SerialNumber : String := ""
  CommonName : String := ""
  Names : List AttributeTypeAndValue := []
  ExtraNames : List AttributeTypeAndValue := []
  deriving DecidableEq, Repr

/-- Go `pkix.Extension`. -/
structure Extension where
  Id : List Int
  Critical : Bool
  Value : List Nat
  deriving DecidableEq, Repr

/-- Go `x509.KeyUsage`, a bitmask. -/
abbrev KeyUsage := Nat

def KeyUsageDigitalSignature : KeyUsage := 1 <<< 0
def KeyUsageContentCommitment : KeyUsage := 1 <<< 1
def KeyUsageKeyEncipherment : KeyUsage := 1 <<< 2
def KeyUsageDataEncipherment : KeyUsage := 1 <<< 3
def KeyUsageKeyAgreement : KeyUsage := 1 <<< 4
def KeyUsageCertSign : KeyUsage := 1 <<< 5
def KeyUsageCRLSign : KeyUsage := 1 <<< 6
def KeyUsageEncipherOnly : KeyUsage := 1 <<< 7
def KeyUsageDecipherOnly : KeyUsage := 1 <<< 8

/-- A public key, kept as its encoding. -/
structure PublicKey where
  raw : List Nat
  deriving DecidableEq, Repr

/-- A private key handle, kept as its encoding. -/
structure PrivateKey where
  raw : List Nat
  deriving DecidableEq, Repr

/-- The fields of Go `x509.Certificate` that the profile code reads or writes.
`default` is the Go zero value. -/
structure Certificate where
  IsCA : Bool := false
  NotBefore : Time := { sec := 0, nsec := 0 }
  NotAfter : Time := { sec := 0, nsec := 0 }
  KeyUsage : KeyUsage := 0
  BasicConstraintsValid : Bool := false
  MaxPathLen : Int := 0
  MaxPathLenZero : Bool := false
  Issuer : Name := {}
  Subject : Name := {}
  ExtraExtensions : List Extension := []
  DNSNames : List String := []
  EmailAddresses : List String := []
  IPAddresses : List (List Nat) := []
  URIs : List String := []
  deriving DecidableEq, Repr

/-- The fields of Go `x509.CertificateRequest` that the profile code reads, and
`ExtraExtensions`, which it does not read. -/
structure CertificateRequest where
  Subject : Name := {}
  PublicKey : Option PublicKey := none
  Extensions : List Extension := []
  ExtraExtensions : List Extension := []
  DNSNames : List String := []
  EmailAddresses : List String := []
  IPAddresses : List (List Nat) := []
  URIs : List String := []
  deriving DecidableEq, Repr

/-- A Go `error`, modelled by its message. -/
abbrev GoError := String

/-- Go `errors.Errorf` of pkg/errors with a format that has no verbs. -/
def Errorf (msg : String) : GoError := msg

/-- Go `errors.Wrap` of pkg/errors on a non-nil error. -/
def Wrap (err : GoError) (msg : String) : GoError := msg ++ ": " ++ err

/-! ## intermediateProfile.go -/

/-- Initial value of the package variable `DefaultIntermediateCertValidity`,
`time.Hour * 24 * 365 * 10`, each product taken in the duration type.  Nothing in
the sources assigns to the variable. -/
def DefaultIntermediateCertValidity : Duration :=
  Duration.mul (Duration.mul (Duration.mul Hour 24) 365) 10

/-- The profile implementation handed to `newProfile`: `Intermediate` is the
`&Intermediate{}` of the source, `Root` and `Leaf` are the two other roles the spec
names (section 2), whose types are not in the sources. -/
inductive ProfileImpl where
  | Root
  | Intermediate
  | Leaf
  deriving DecidableEq, Repr

/-- Method `(*Intermediate).DefaultDuration`. -/
def Intermediate.DefaultDuration : Duration := DefaultIntermediateCertValidity

/-- Type of the clock: `time.Now()` reads the world. -/
abbrev Clock (W : Type) := W → Time × W

/-- Type of `newProfile`, which is not part of the two source files. -/
abbrev NewProfileFn (W P Op : Type) :=
  ProfileImpl → Certificate → Certificate → PrivateKey → List Op → W → Except GoError P × W

/-- Function `defaultIntermediateTemplate`. -/
def defaultIntermediateTemplate {W : Type} (now : Clock W) (sub : Name) (iss : Name)
    (w : W) : Certificate × W :=
  let (notBefore, w1) := now w
  ({ IsCA := true
     NotBefore := notBefore
     NotAfter := notBefore.Add DefaultIntermediateCertValidity
     KeyUsage := KeyUsageCertSign ||| KeyUsageCRLSign
     BasicConstraintsValid := true
     MaxPathLen := 0
     MaxPathLenZero := false
     Issuer := iss
     Subject := sub }, w1)

/-- Function `NewIntermediateProfile`. -/
def NewIntermediateProfile {W P Op : Type} (now : Clock W) (newProfile : NewProfileFn W P Op)
    (name : String) (iss : Certificate) (issPriv : PrivateKey) (withOps : List Op)
    (w : W) : Except GoError P × W :=
  let (sub, w1) := defaultIntermediateTemplate now { CommonName := name } { CommonName := name } w
  newProfile ProfileImpl.Intermediate sub iss issPriv withOps w1

/-- Function `NewIntermediateProfileWithCSR`. -/
def NewIntermediateProfileWithCSR {W P Op : Type} (now : Clock W)
    (newProfile : NewProfileFn W P Op) (WithPublicKey : PublicKey → Op)
    (csr : CertificateRequest) (iss : Certificate) (issPriv : PrivateKey) (withOps : List Op)
    (w : W) : Except GoError P × W :=
  match csr.PublicKey with
  | none => (Except.error (Errorf "CSR must have PublicKey"), w)
  | some pub =>
    let (sub, w1) := defaultIntermediateTemplate now csr.Subject iss.Subject w
    let sub := { sub with ExtraExtensions := csr.Extensions }
    let sub := { sub with DNSNames := csr.DNSNames }
    let sub := { sub with EmailAddresses := csr.EmailAddresses }
    let sub := { sub with IPAddresses := csr.IPAddresses }
    let sub := { sub with URIs := csr.URIs }
    let withOps := withOps ++ [WithPublicKey pub]
    newProfile ProfileImpl.Intermediate sub iss issPriv withOps w1

/-- The arguments of one call of `newProfile`. -/
structure NewProfileCall (Op : Type) where
  p : ProfileImpl
  sub : Certificate
  iss : Certificate
  issPriv : PrivateKey
  withOps : List Op

/-- A `newProfile` that does nothing but return the arguments it was called with. -/
def recordCall {W Op : Type} : NewProfileFn W (NewProfileCall Op) Op :=
  fun p sub iss issPriv withOps w => (Except.ok ⟨p, sub, iss, issPriv, withOps⟩, w)

/-- Run `newProfile` on a recorded call; an error that came before the call is
passed on. -/
def replayCall {W P Op : Type} (newProfile : NewProfileFn W P Op) :
    Except GoError (NewProfileCall Op) × W → Except GoError P × W
  | (Except.ok c, w) => newProfile c.p c.sub c.iss c.issPriv c.withOps w
  | (Except.error e, w) => (Except.error e, w)

/-- The factory `f`, started in world `w`, ends by calling `newProfile` on exactly
the arguments `c` in world `w1`: whatever `newProfile` is, the result of the
factory is the result of that call. -/
def HandsToNewProfile {W Op : Type}
    (f : (P : Type) → NewProfileFn W P Op → W → Except GoError P × W)
    (w : W) (c : NewProfileCall Op) (w1 : W) : Prop :=
  ∀ (P : Type) (newProfile : NewProfileFn W P Op),
    f P newProfile w = newProfile c.p c.sub c.iss c.issPriv c.withOps w1

/-- The failure the spec calls `MissingPublicKey`: the error built at the nil check
of `NewIntermediateProfileWithCSR`. -/
def MissingPublicKey : GoError := Errorf "CSR must have PublicKey"

/-! ## The mutator chain -/

/-- Modelled from the spec: the profile state of `profile.go`, which is missing from
the sources; section 3 gives it the template, the issuer certificate, the issuer
key and the subject public key. -/
structure BaseProfile where
  sub : Certificate
  iss : Certificate
  issPriv : PrivateKey
  subjectPublicKey : Option PublicKey
  deriving DecidableEq, Repr

/-- Modelled from the spec: the type `WithOption` of the missing `profile.go`, a
fallible override of the in-progress profile (section 4.3). -/
abbrev WithOption := BaseProfile → Except GoError BaseProfile

/-- Modelled from the spec: the mutator `WithPublicKey` of the missing `profile.go`,
"override-public-key (replace subject public key)" of section 4.3. -/
def WithPublicKey (pub : PublicKey) : WithOption :=
  fun p => Except.ok { p with subjectPublicKey := some pub }

/-- Modelled from the spec: the loop of the missing `newProfile` over its mutators,
"applied strictly in the order supplied; each may fail, and the first failure
aborts construction immediately" (section 4.3). -/
def applyOps : List WithOption → BaseProfile → Except GoError BaseProfile
  | [], p => Except.ok p
  | op :: rest, p =>
    match op p with
    | Except.error e => Except.error e
    | Except.ok q => applyOps rest q

/-! ## Sample inputs -/

/-- A clock whose world is the number of readings taken so far. -/
def sampleClock : Clock Nat := fun n => ({ sec := 63900000000 + n, nsec := 250 }, n + 1)

/-- A root certificate to issue from. -/
def sampleRoot : Certificate :=
  { IsCA := true
    KeyUsage := KeyUsageCertSign ||| KeyUsageCRLSign
    BasicConstraintsValid := true
    MaxPathLen := 1
    Issuer := { CommonName := "Example Root CA" }
    Subject := { CommonName := "Example Root CA" } }

/-- The key of the sample root. -/
def sampleRootKey : PrivateKey := { raw := [7, 7, 7] }

/-- A signing request that carries a public key. -/
def sampleCSR : CertificateRequest :=
  { Subject := { CommonName := "Example Intermediate CA", Organization := ["Example"] }
    PublicKey := some { raw := [1, 2, 3] }
    Extensions := [{ Id := [2, 5, 29, 17], Critical := false, Value := [48, 0] },
                   { Id := [1, 2, 3, 4], Critical := true, Value := [5] }]
    DNSNames := ["ca.example.com"]
    EmailAddresses := ["pki@example.com"]
    IPAddresses := [[10, 0, 0, 1]]
    URIs := ["https://ca.example.com"] }

/-- The same signing request without its public key. -/
def sampleCSRNoKey : CertificateRequest := { sampleCSR with PublicKey := none }

/-- A `newProfile` that counts its calls in the world, fails on an empty issuer key
and otherwise returns the profile state before any mutator. -/
def sampleNewProfile : NewProfileFn Nat BaseProfile WithOption :=
  fun _ sub iss issPriv _ w =>
    if issPriv.raw = [] then (Except.error (Errorf "issuer private key cannot be nil"), w + 100)
    else (Except.ok { sub := sub, iss := iss, issPriv := issPriv, subjectPublicKey := none },
          w + 100)

end X509util

namespace Ssh

open X509util (GoError Errorf Wrap)

/-! ## checkHost.go -/

/-- The part of `cli.Context` the action reads: the positional arguments; the
flags are read only by the collaborators. -/
structure Context where
  args : List String
  flags : List (String × String)
  deriving DecidableEq, Repr

/-- Method `ctx.NArg`. -/
def Context.NArg (ctx : Context) : Nat := ctx.args.length

/-- Method `ctx.Args().First`: the first argument, or the empty string. -/
def Context.First (ctx : Context) : String := ctx.args.headD ""

/-- The fields of `ca.Identity` the action reads. -/
structure Identity where
  Certificate : String
  Key : String
  deriving DecidableEq, Repr

/-- The field of the check response the action reads. -/
structure SSHCheckPrincipalResponse where
  Exists : Bool
  deriving DecidableEq, Repr

/-- The collaborators of `checkHostAction`, none of which is in the two source
files.  Each one may read and change the world. -/
structure Collaborators (W RetryFunc Client JWK TokenGen : Type) where
  NumberOfArguments : Context → Nat → Option GoError
  loginOnUnauthorized : Context → W → Except GoError RetryFunc × W
  NewClient : Context → RetryFunc → W → Except GoError Client × W
  LoadDefaultIdentity : W → Except GoError (Option Identity) × W
  ParseKey : String → W → Except GoError JWK × W
  NewTokenGenerator : JWK → TokenGen
  Token : TokenGen → String → JWK → W → Except GoError String × W
  SSHCheckHost : Client → String → String → W → Except GoError SSHCheckPrincipalResponse × W

/-- How an invocation of the action ends: it returns to the command framework
with or without an error, or it ends the process itself with an exit code. -/
inductive Outcome where
  | returned (err : Option GoError)
  | exited (code : Int)
  deriving DecidableEq, Repr

/-- Result of running the action: how it ended, what it printed, the world left. -/
structure Run (W : Type) where
  outcome : Outcome
  stdout : List String
  world : W

/-- Go `fmt.Println` of a boolean. -/
def printBool (b : Bool) : String := if b then "true\n" else "false\n"

/-- Function `checkHostAction`. -/
def checkHostAction {W RetryFunc Client JWK TokenGen : Type}
    (c : Collaborators W RetryFunc Client JWK TokenGen) (ctx : Context) (w : W) : Run W :=
  match c.NumberOfArguments ctx 1 with
  | some err => ⟨Outcome.returned (some err), [], w⟩
  | none =>
  match c.loginOnUnauthorized ctx w with
  | (Except.error err, w1) => ⟨Outcome.returned (some err), [], w1⟩
  | (Except.ok retryFunc, w1) =>
  match c.NewClient ctx retryFunc w1 with
  | (Except.error err, w2) => ⟨Outcome.returned (some err), [], w2⟩
  | (Except.ok client, w2) =>
  match c.LoadDefaultIdentity w2 with
  | (Except.error err, w3) =>
    ⟨Outcome.returned (some (Wrap err "error loading the deault x5c identity")), [], w3⟩
  | (Except.ok id, w3) =>
  let tokenStep : Except GoError String × W :=
    match id with
    | none => (Except.ok "", w3)
    | some id =>
      match c.ParseKey id.Key w3 with
      | (Except.error err, w4) => (Except.error err, w4)
      | (Except.ok jwk, w4) =>
        let tokenGen := c.NewTokenGenerator jwk
        match c.Token tokenGen id.Certificate jwk w4 with
        | (Except.error err, w5) =>
          (Except.error
            (Wrap err "error generating idenityt x5c token for /ssh/check-host request"), w5)
        | (Except.ok token, w5) => (Except.ok token, w5)
  match tokenStep with
  | (Except.error err, w5) => ⟨Outcome.returned (some err), [], w5⟩
  | (Except.ok token, w5) =>
  match c.SSHCheckHost client ctx.First token w5 with
  | (Except.error err, w6) => ⟨Outcome.returned (some err), [], w6⟩
  | (Except.ok resp, w6) =>
    if !resp.Exists then ⟨Outcome.exited 1, [printBool resp.Exists], w6⟩
    else ⟨Outcome.returned none, [printBool resp.Exists], w6⟩

/-- The token step of the action succeeds from world `w3` with `token`, leaving
world `w5`: without an identity the token is empty and nothing is called, with an
identity its key is parsed and a token is generated. -/
def TokenReady {W RetryFunc Client JWK TokenGen : Type}
    (c : Collaborators W RetryFunc Client JWK TokenGen) (id : Option Identity) (w3 : W)
    (token : String) (w5 : W) : Prop :=
  (id = none ∧ token = "" ∧ w5 = w3) ∨
  ∃ i jwk w4, id = some i ∧ c.ParseKey i.Key w3 = (Except.ok jwk, w4) ∧
    c.Token (c.NewTokenGenerator jwk) i.Certificate jwk w4 = (Except.ok token, w5)

/-- Key parsing or token generation fails for the loaded identity. -/
def TokenFails {W RetryFunc Client JWK TokenGen : Type}
    (c : Collaborators W RetryFunc Client JWK TokenGen) (id : Option Identity) (w3 : W) : Prop :=
  ∃ i, id = some i ∧
    ((∃ e w4, c.ParseKey i.Key w3 = (Except.error e, w4)) ∨
     (∃ jwk w4 e w5, c.ParseKey i.Key w3 = (Except.ok jwk, w4) ∧
        c.Token (c.NewTokenGenerator jwk) i.Certificate jwk w4 = (Except.error e, w5)))

/-- Every step before the check succeeds: one argument, a retry function, a
client, the identity (possibly none) and the token; the check is then called on
`client` and `token` in world `w5`. -/
def CheckReached {W RetryFunc Client JWK TokenGen : Type}
    (c : Collaborators W RetryFunc Client JWK TokenGen) (ctx : Context) (w : W)
    (client : Client) (token : String) (w5 : W) : Prop :=
  ctx.NArg = 1 ∧
  ∃ retryFunc w1 w2 id w3,
    c.loginOnUnauthorized ctx w = (Except.ok retryFunc, w1) ∧
    c.NewClient ctx retryFunc w1 = (Except.ok client, w2) ∧
    c.LoadDefaultIdentity w2 = (Except.ok id, w3) ∧
    TokenReady c id w3 token w5

/-- The check of the CA service is reached and answers that the host exists
(`b = true`) or does not exist (`b = false`). -/
def CheckReports {W RetryFunc Client JWK TokenGen : Type}
    (c : Collaborators W RetryFunc Client JWK TokenGen) (ctx : Context) (w : W)
    (b : Bool) : Prop :=
  ∃ client token w5 resp w6, CheckReached c ctx w client token w5 ∧
    c.SSHCheckHost client ctx.First token w5 = (Except.ok resp, w6) ∧ resp.Exists = b

/-- The argument count is not one, or one of retry-function setup, client
creation, identity loading, key parsing, token generation or the check call,
called as the action calls it, fails. -/
def SomeStepFails {W RetryFunc Client JWK TokenGen : Type}
    (c : Collaborators W RetryFunc Client JWK TokenGen) (ctx : Context) (w : W) : Prop :=
  ctx.NArg ≠ 1 ∨
  (∃ e w1, c.loginOnUnauthorized ctx w = (Except.error e, w1)) ∨
  (∃ retryFunc w1 e w2, c.loginOnUnauthorized ctx w = (Except.ok retryFunc, w1) ∧
    c.NewClient ctx retryFunc w1 = (Except.error e, w2)) ∨
  (∃ retryFunc w1 client w2 e w3, c.loginOnUnauthorized ctx w = (Except.ok retryFunc, w1) ∧
    c.NewClient ctx retryFunc w1 = (Except.ok client, w2) ∧
    c.LoadDefaultIdentity w2 = (Except.error e, w3)) ∨
  (∃ retryFunc w1 client w2 id w3, c.loginOnUnauthorized ctx w = (Except.ok retryFunc, w1) ∧
    c.NewClient ctx retryFunc w1 = (Except.ok client, w2) ∧
    c.LoadDefaultIdentity w2 = (Except.ok id, w3) ∧
    TokenFails c id w3) ∨
  (∃ client token w5 e w6, CheckReached c ctx w client token w5 ∧
    c.SSHCheckHost client ctx.First token w5 = (Except.error e, w6))

/-! ## Sample collaborators -/

/-- A CA that knows one host, reached through collaborators that never fail; the
world counts the calls made. -/
def sampleCollaborators : Collaborators Nat Unit Unit String String where
  NumberOfArguments := fun ctx n =>
    if ctx.NArg < n then some "not enough positional arguments"
    else if ctx.NArg > n then some "too many positional arguments"
    else none
  loginOnUnauthorized := fun _ w => (Except.ok (), w + 1)
  NewClient := fun _ _ w => (Except.ok (), w + 1)
  LoadDefaultIdentity := fun w =>
    (Except.ok (some { Certificate := "identity.crt", Key := "identity_key" }), w + 1)
  ParseKey := fun file w => (Except.ok file, w + 1)
  NewTokenGenerator := fun jwk => jwk
  Token := fun gen cert _ w => (Except.ok (gen ++ "/" ++ cert), w + 1)
  SSHCheckHost := fun _ host _ w =>
    (Except.ok { Exists := decide (host = "internal.smallstep.com") }, w + 1)

/-- The command line of the example in the help text. -/
def sampleContext : Context := { args := ["internal.smallstep.com"], flags := [] }

/-- A command line that asks for a host the sample CA does not know. -/
def sampleContextUnknown : Context := { args := ["unknown.example.com"], flags := [] }

end Ssh

namespace X509util

/-! ## Arithmetic of the 64-bit types -/

theorem wrapInt64_eq_self {x : Int} (h : inInt64 x) : wrapInt64 x = x := by
  unfold inInt64 minInt64 maxInt64 at h
  unfold wrapInt64
  omega

theorem DefaultIntermediateCertValidity_val :
    DefaultIntermediateCertValidity = 315360000000000000 := by
  decide

theorem Time.addSec_of_fits {sec d : Int} (hd : inInt64 (sec + d)) :
    Time.addSec sec d = sec + d := by
  unfold Time.addSec
  simp only [wrapInt64_eq_self hd]
  have hc : decide (sec + d > sec) = decide (d > 0) := by
    by_cases h : d > 0
    · have h2 : sec + d > sec := by omega
      simp [h, h2]
    · have h2 : ¬ sec + d > sec := by omega
      simp [h, h2]
  rw [if_pos hc]

theorem Time.Add_validity (t : Time) (h0 : 0 ≤ t.nsec) (h1 : t.nsec < 1000000000) :
    t.Add DefaultIntermediateCertValidity
      = { sec := Time.addSec t.sec 315360000, nsec := t.nsec } := by
  have hd : Int.tdiv 315360000000000000 1000000000 = 315360000 := by decide
  have hm : Int.tmod 315360000000000000 1000000000 = 0 := by decide
  rw [DefaultIntermediateCertValidity_val]
  unfold Time.Add
  simp only [hd, hm, add_zero]
  rw [if_neg (by omega), if_neg (by omega)]

theorem Time.Add_validity_of_fits (t : Time) (hwf : t.WellFormed)
    (hfit : t.sec + 315360000 ≤ maxInt64) :
    t.Add DefaultIntermediateCertValidity
      = { sec := t.sec + 315360000, nsec := t.nsec } := by
  obtain ⟨hsec, h0, h1⟩ := hwf
  have hin : inInt64 (t.sec + 315360000) := by
    have hlo := hsec.1
    unfold minInt64 at hlo
    unfold inInt64 minInt64
    constructor <;> omega
  rw [Time.Add_validity t h0 h1, Time.addSec_of_fits hin]

theorem Time.Sub_Add_validity (t : Time) (hwf : t.WellFormed)
    (hfit : t.sec + 315360000 ≤ maxInt64) :
    (t.Add DefaultIntermediateCertValidity).Sub t = DefaultIntermediateCertValidity := by
  have hk : wrapInt64 (t.sec + 315360000 - t.sec) = 315360000 := by
    have : t.sec + 315360000 - t.sec = 315360000 := by ring
    rw [this]
    decide
  have hd : wrapInt64 (wrapInt64 (315360000 * Second) + (t.nsec - t.nsec))
      = DefaultIntermediateCertValidity := by
    rw [sub_self, add_zero]
    decide
  have ha := Time.Add_validity_of_fits t hwf hfit
  unfold Time.Sub
  simp only [ha, hk, hd]
  simp

theorem Time.After_Add_validity (t : Time) (hwf : t.WellFormed)
    (hfit : t.sec + 315360000 ≤ maxInt64) :
    (t.Add DefaultIntermediateCertValidity).After t = true := by
  rw [Time.Add_validity_of_fits t hwf hfit]
  unfold Time.After
  simp

/-! ## What the factories hand to `newProfile` -/

theorem defaultIntermediateTemplate_eq {W : Type} (now : Clock W) (sub iss : Name) (w : W) :
    defaultIntermediateTemplate now sub iss w =
      ({ IsCA := true
         NotBefore := (now w).1
         NotAfter := (now w).1.Add DefaultIntermediateCertValidity
         KeyUsage := KeyUsageCertSign ||| KeyUsageCRLSign
         BasicConstraintsValid := true
         MaxPathLen := 0
         MaxPathLenZero := false
         Issuer := iss
         Subject := sub }, (now w).2) := rfl

theorem HandsToNewProfile_unique {W Op : Type}
    {f : (P : Type) → NewProfileFn W P Op → W → Except GoError P × W} {w : W}
    {c c2 : NewProfileCall Op} {w1 w2 : W}
    (h : HandsToNewProfile f w c w1) (h2 : HandsToNewProfile f w c2 w2) :
    c = c2 ∧ w1 = w2 := by
  have e := (h _ recordCall).symm.trans (h2 _ recordCall)
  simp only [recordCall, Prod.mk.injEq, Except.ok.injEq] at e
  exact e

theorem NewIntermediateProfile_hands {W Op : Type} (now : Clock W) (name : String)
    (iss : Certificate) (issPriv : PrivateKey) (withOps : List Op) (w : W) :
    HandsToNewProfile (fun _ np => NewIntermediateProfile now np name iss issPriv withOps) w
      { p := ProfileImpl.Intermediate
        sub := (defaultIntermediateTemplate now { CommonName := name } { CommonName := name } w).1
        iss := iss
        issPriv := issPriv
        withOps := withOps } (now w).2 := by
  intro P np
  rfl

theorem NewIntermediateProfileWithCSR_hands {W Op : Type} (now : Clock W)
    (wpk : PublicKey → Op) (csr : CertificateRequest) (iss : Certificate)
    (issPriv : PrivateKey) (withOps : List Op) (w : W) (pub : PublicKey)
    (h : csr.PublicKey = some pub) :
    HandsToNewProfile
      (fun _ np => NewIntermediateProfileWithCSR now np wpk csr iss issPriv withOps) w
      { p := ProfileImpl.Intermediate
        sub := { (defaultIntermediateTemplate now csr.Subject iss.Subject w).1 with
                 ExtraExtensions := csr.Extensions
                 DNSNames := csr.DNSNames
                 EmailAddresses := csr.EmailAddresses
                 IPAddresses := csr.IPAddresses
                 URIs := csr.URIs }
        iss := iss
        issPriv := issPriv
        withOps := withOps ++ [wpk pub] } (now w).2 := by
  intro P np
  simp only [NewIntermediateProfileWithCSR, h]
  rfl

theorem keyUsage_bits (i : Nat) :
    Nat.testBit (KeyUsageCertSign ||| KeyUsageCRLSign) i = (decide (i = 5) || decide (i = 6)) := by
  have hv : KeyUsageCertSign ||| KeyUsageCRLSign = 96 := by decide
  rw [hv]
  by_cases h : i < 8
  · interval_cases i <;> decide
  · have hlt : 96 < 2 ^ i :=
      lt_of_lt_of_le (by norm_num) (Nat.pow_le_pow_right (by norm_num) (not_lt.mp h))
    have h5 : i ≠ 5 := by omega
    have h6 : i ≠ 6 := by omega
    rw [Nat.testBit_lt_two_pow hlt]
    simp [h5, h6]

/-! ## The claims about the intermediate profile -/

/-- C1: for every subject and issuer name the default intermediate template is a CA
template (`IsCA` and `BasicConstraintsValid` set) whose key usage is exactly
certificate-signing or-ed with CRL-signing: bits 5 and 6 and no other bit.  The
template that `NewIntermediateProfile` hands to `newProfile`, and the one that
`NewIntermediateProfileWithCSR` hands over for a request with a public key, have
the same three properties. -/
theorem intermediate_template_is_ca {W Op : Type} (now : Clock W) (w : W) :
    (∀ sub iss : Name,
      (defaultIntermediateTemplate now sub iss w).1.IsCA = true ∧
      (defaultIntermediateTemplate now sub iss w).1.BasicConstraintsValid = true ∧
      (defaultIntermediateTemplate now sub iss w).1.KeyUsage
        = KeyUsageCertSign ||| KeyUsageCRLSign ∧
      ∀ i, Nat.testBit (defaultIntermediateTemplate now sub iss w).1.KeyUsage i
        = (decide (i = 5) || decide (i = 6))) ∧
    (∀ (name : String) (iss : Certificate) (issPriv : PrivateKey) (withOps : List Op),
      ∃ c : NewProfileCall Op,
        HandsToNewProfile (fun _ np => NewIntermediateProfile now np name iss issPriv withOps)
          w c (now w).2 ∧
        c.sub.IsCA = true ∧ c.sub.BasicConstraintsValid = true ∧
        c.sub.KeyUsage = KeyUsageCertSign ||| KeyUsageCRLSign ∧
        ∀ i, Nat.testBit c.sub.KeyUsage i = (decide (i = 5) || decide (i = 6))) ∧
    (∀ (wpk : PublicKey → Op) (csr : CertificateRequest) (pub : PublicKey) (iss : Certificate)
        (issPriv : PrivateKey) (withOps : List Op),
      csr.PublicKey = some pub →
      ∃ c : NewProfileCall Op,
        HandsToNewProfile
          (fun _ np => NewIntermediateProfileWithCSR now np wpk csr iss issPriv withOps)
          w c (now w).2 ∧
        c.sub.IsCA = true ∧ c.sub.BasicConstraintsValid = true ∧
        c.sub.KeyUsage = KeyUsageCertSign ||| KeyUsageCRLSign ∧
        ∀ i, Nat.testBit c.sub.KeyUsage i = (decide (i = 5) || decide (i = 6))) := by
  refine ⟨fun sub iss => ⟨rfl, rfl, rfl, keyUsage_bits⟩, ?_, ?_⟩
  · intro name iss issPriv withOps
    exact ⟨_, NewIntermediateProfile_hands now name iss issPriv withOps w,
      rfl, rfl, rfl, keyUsage_bits⟩
  · intro wpk csr pub iss issPriv withOps h
    exact ⟨_, NewIntermediateProfileWithCSR_hands now wpk csr iss issPriv withOps w pub h,
      rfl, rfl, rfl, keyUsage_bits⟩

/-- Witness of C1 on the sample request: the template handed over for it is a CA
template with key usage 96. -/
theorem intermediate_template_is_ca_witness :
    ∃ c : NewProfileCall WithOption,
      HandsToNewProfile
        (fun _ np => NewIntermediateProfileWithCSR sampleClock np WithPublicKey sampleCSR
          sampleRoot sampleRootKey [])
        0 c (sampleClock 0).2 ∧
      c.sub.IsCA = true ∧ c.sub.BasicConstraintsValid = true ∧
      c.sub.KeyUsage = KeyUsageCertSign ||| KeyUsageCRLSign ∧
      ∀ i, Nat.testBit c.sub.KeyUsage i = (decide (i = 5) || decide (i = 6)) :=
  (intermediate_template_is_ca sampleClock 0).2.2 WithPublicKey sampleCSR { raw := [1, 2, 3] }
    sampleRoot sampleRootKey [] rfl

/-- C2, the code at the scenario of the spec: for the subject name
"Example Intermediate CA" and the sample root as issuer, `NewIntermediateProfile`
hands `newProfile` a template whose issuer name is the subject name again, and
not the subject name of the root. -/
theorem NewIntermediateProfile_issuer_is_own_name :
    ∃ c : NewProfileCall WithOption,
      HandsToNewProfile
        (fun _ np => NewIntermediateProfile sampleClock np "Example Intermediate CA"
          sampleRoot sampleRootKey [])
        0 c (sampleClock 0).2 ∧
      c.iss = sampleRoot ∧
      sampleRoot.Subject = { CommonName := "Example Root CA" } ∧
      c.sub.Subject = { CommonName := "Example Intermediate CA" } ∧
      c.sub.Issuer = { CommonName := "Example Intermediate CA" } ∧
      c.sub.Issuer ≠ sampleRoot.Subject := by
  refine ⟨_, NewIntermediateProfile_hands sampleClock "Example Intermediate CA" sampleRoot
    sampleRootKey [] 0, rfl, rfl, rfl, rfl, ?_⟩
  decide

/-- C3: when the public key of the request is nil, `NewIntermediateProfileWithCSR`
returns the `MissingPublicKey` error and no profile and leaves the world as it
found it, whatever the clock, `newProfile` and `WithPublicKey` are: no template is
built, no mutator is made or applied and `newProfile` is not called.  Conversely,
when the public key is not nil the function adds no error of its own, its result is
the result of its call of `newProfile`; so with a `newProfile` that never fails
with that same error, the function returns it only if the public key is nil. -/
theorem NewIntermediateProfileWithCSR_missing_public_key {W Op : Type}
    (csr : CertificateRequest) (iss : Certificate) (issPriv : PrivateKey)
    (withOps : List Op) (w : W) :
    (csr.PublicKey = none →
      ∀ (P : Type) (now : Clock W) (newProfile : NewProfileFn W P Op) (wpk : PublicKey → Op),
        NewIntermediateProfileWithCSR now newProfile wpk csr iss issPriv withOps w
          = (Except.error MissingPublicKey, w)) ∧
    (csr.PublicKey ≠ none →
      ∀ (now : Clock W) (wpk : PublicKey → Op), ∃ c : NewProfileCall Op,
        HandsToNewProfile
          (fun _ np => NewIntermediateProfileWithCSR now np wpk csr iss issPriv withOps)
          w c (now w).2) ∧
    (∀ (P : Type) (now : Clock W) (newProfile : NewProfileFn W P Op) (wpk : PublicKey → Op),
      (∀ p sub i k ops w0, (newProfile p sub i k ops w0).1 ≠ Except.error MissingPublicKey) →
      (NewIntermediateProfileWithCSR now newProfile wpk csr iss issPriv withOps w).1
          = Except.error MissingPublicKey →
      csr.PublicKey = none) := by
  refine ⟨?_, ?_, ?_⟩
  · intro h P now newProfile wpk
    simp only [NewIntermediateProfileWithCSR, h]
    rfl
  · intro hne now wpk
    cases hk : csr.PublicKey with
    | none => exact absurd hk hne
    | some pub =>
      exact ⟨_, NewIntermediateProfileWithCSR_hands now wpk csr iss issPriv withOps w pub hk⟩
  · intro P now newProfile wpk hnp hres
    cases hk : csr.PublicKey with
    | none => rfl
    | some pub =>
      have hh := NewIntermediateProfileWithCSR_hands now wpk csr iss issPriv withOps w pub hk
        P newProfile
      simp only at hh
      rw [hh] at hres
      exact absurd hres (hnp _ _ _ _ _ _)

theorem sampleNewProfile_never_missing_public_key (p : ProfileImpl) (sub i : Certificate)
    (k : PrivateKey) (ops : List WithOption) (w0 : Nat) :
    (sampleNewProfile p sub i k ops w0).1 ≠ Except.error MissingPublicKey := by
  unfold sampleNewProfile
  split
  · intro hc
    have hm : Errorf "issuer private key cannot be nil" = MissingPublicKey :=
      Except.error.inj hc
    exact absurd hm (by decide)
  · intro hc
    cases hc

/-- Witness of C3: the sample request without its key is refused in world `0`, which
is left at `0` although the sample clock and the sample `newProfile` both count
their calls; the sample request with its key reaches `newProfile`; and the refusal
of the keyless request leads back to its nil key. -/
theorem NewIntermediateProfileWithCSR_missing_public_key_witness :
    (sampleCSRNoKey.PublicKey = none ∧
      NewIntermediateProfileWithCSR sampleClock sampleNewProfile WithPublicKey sampleCSRNoKey
        sampleRoot sampleRootKey [] 0 = (Except.error "CSR must have PublicKey", 0) ∧
      (sampleClock 0).2 = 1 ∧
      (sampleNewProfile ProfileImpl.Intermediate sampleRoot sampleRoot sampleRootKey [] 0).2
        = 100) ∧
    (sampleCSR.PublicKey ≠ none ∧
      ∃ c : NewProfileCall WithOption,
        HandsToNewProfile
          (fun _ np => NewIntermediateProfileWithCSR sampleClock np WithPublicKey sampleCSR
            sampleRoot sampleRootKey [])
          0 c (sampleClock 0).2) ∧
    sampleCSRNoKey.PublicKey = none :=
  ⟨⟨rfl,
    (NewIntermediateProfileWithCSR_missing_public_key sampleCSRNoKey sampleRoot sampleRootKey
      [] 0).1 rfl BaseProfile sampleClock sampleNewProfile WithPublicKey,
    rfl, rfl⟩,
   ⟨by decide,
    (NewIntermediateProfileWithCSR_missing_public_key sampleCSR sampleRoot sampleRootKey
      ([] : List WithOption) (0 : Nat)).2.1 (by decide) sampleClock WithPublicKey⟩,
   (NewIntermediateProfileWithCSR_missing_public_key sampleCSRNoKey sampleRoot sampleRootKey
      ([] : List WithOption) (0 : Nat)).2.2 BaseProfile sampleClock sampleNewProfile
      WithPublicKey sampleNewProfile_never_missing_public_key rfl⟩

/-- C4: for a request with a public key, the template that
`NewIntermediateProfileWithCSR` hands to `newProfile` has the subject of the
request, the subject of the issuer certificate as issuer, the extensions of the
request as extra extensions (the same list, in the same order) and the four
subject-alternative-name lists of the request. -/
theorem NewIntermediateProfileWithCSR_template {W Op : Type} (now : Clock W)
    (wpk : PublicKey → Op) (csr : CertificateRequest) (iss : Certificate)
    (issPriv : PrivateKey) (withOps : List Op) (w : W) (pub : PublicKey)
    (h : csr.PublicKey = some pub) :
    ∃ c : NewProfileCall Op,
      HandsToNewProfile
        (fun _ np => NewIntermediateProfileWithCSR now np wpk csr iss issPriv withOps)
        w c (now w).2 ∧
      c.sub.Subject = csr.Subject ∧
      c.sub.Issuer = iss.Subject ∧
      c.sub.ExtraExtensions = csr.Extensions ∧
      c.sub.DNSNames = csr.DNSNames ∧
      c.sub.EmailAddresses = csr.EmailAddresses ∧
      c.sub.IPAddresses = csr.IPAddresses ∧
      c.sub.URIs = csr.URIs :=
  ⟨_, NewIntermediateProfileWithCSR_hands now wpk csr iss issPriv withOps w pub h,
    rfl, rfl, rfl, rfl, rfl, rfl, rfl⟩

/-- Witness of C4 on the sample request and the sample root. -/
theorem NewIntermediateProfileWithCSR_template_witness :
    sampleCSR.PublicKey = some { raw := [1, 2, 3] } ∧
    ∃ c : NewProfileCall WithOption,
      HandsToNewProfile
        (fun _ np => NewIntermediateProfileWithCSR sampleClock np WithPublicKey sampleCSR
          sampleRoot sampleRootKey [])
        0 c (sampleClock 0).2 ∧
      c.sub.Subject = sampleCSR.Subject ∧
      c.sub.Issuer = sampleRoot.Subject ∧
      c.sub.ExtraExtensions = sampleCSR.Extensions ∧
      c.sub.DNSNames = sampleCSR.DNSNames ∧
      c.sub.EmailAddresses = sampleCSR.EmailAddresses ∧
      c.sub.IPAddresses = sampleCSR.IPAddresses ∧
      c.sub.URIs = sampleCSR.URIs :=
  ⟨rfl, NewIntermediateProfileWithCSR_template sampleClock WithPublicKey sampleCSR sampleRoot
    sampleRootKey [] 0 { raw := [1, 2, 3] } rfl⟩

/-- C5: for a construction timestamp that is a well-formed time whose second count
can still take ten years more, the default intermediate template starts at that
timestamp and its validity window, measured by `Time.Sub`, is exactly
`Intermediate.DefaultDuration`; the template depends on the clock and the world
only through the timestamp read, so it is a function of timestamp, subject and
issuer. -/
theorem defaultIntermediateTemplate_duration {W : Type} (now : Clock W) (sub iss : Name)
    (w : W) (hwf : (now w).1.WellFormed) (hfit : (now w).1.sec + 315360000 ≤ maxInt64) :
    (defaultIntermediateTemplate now sub iss w).1.NotBefore = (now w).1 ∧
    (defaultIntermediateTemplate now sub iss w).1.NotAfter.Sub
        (defaultIntermediateTemplate now sub iss w).1.NotBefore
      = Intermediate.DefaultDuration ∧
    (∀ (W2 : Type) (now2 : Clock W2) (w2 : W2), (now2 w2).1 = (now w).1 →
      (defaultIntermediateTemplate now2 sub iss w2).1
        = (defaultIntermediateTemplate now sub iss w).1) := by
  refine ⟨rfl, ?_, ?_⟩
  · simp only [defaultIntermediateTemplate_eq, Intermediate.DefaultDuration]
    exact Time.Sub_Add_validity _ hwf hfit
  · intro W2 now2 w2 ht
    simp only [defaultIntermediateTemplate_eq, ht]

/-- Witness of C5 at the first reading of the sample clock. -/
theorem defaultIntermediateTemplate_duration_witness :
    ((sampleClock 0).1.WellFormed ∧ (sampleClock 0).1.sec + 315360000 ≤ maxInt64) ∧
    (defaultIntermediateTemplate sampleClock sampleCSR.Subject sampleRoot.Subject 0).1.NotAfter.Sub
        (defaultIntermediateTemplate sampleClock sampleCSR.Subject sampleRoot.Subject 0).1.NotBefore
      = 315360000000000000 :=
  ⟨⟨by decide, by decide⟩,
   (defaultIntermediateTemplate_duration sampleClock sampleCSR.Subject sampleRoot.Subject 0
      (by decide) (by decide)).2.1.trans DefaultIntermediateCertValidity_val⟩

/-- C6: `Intermediate.DefaultDuration` is ten years of 365 days: 87,600 hours,
315,360,000 seconds, 315,360,000,000,000,000 nanoseconds; every product of
`time.Hour * 24 * 365 * 10` stays inside the signed 64-bit range, so the wrapped
value is the exact product. -/
theorem Intermediate_DefaultDuration_value :
    Intermediate.DefaultDuration = 315360000000000000 * Nanosecond ∧
    Intermediate.DefaultDuration = 315360000 * Second ∧
    Intermediate.DefaultDuration = 87600 * Hour ∧
    Intermediate.DefaultDuration = 10 * (365 * (24 * Hour)) ∧
    inInt64 (Hour * 24) ∧ inInt64 (Hour * 24 * 365) ∧ inInt64 (Hour * 24 * 365 * 10) ∧
    Intermediate.DefaultDuration = Hour * 24 * 365 * 10 := by
  decide

/-- C8: the default intermediate template has `MaxPathLen = 0` together with
`MaxPathLenZero = false`, for every subject and issuer name, and the template that
`NewIntermediateProfileWithCSR` hands to `newProfile` still has both values. -/
theorem intermediate_template_path_length {W Op : Type} (now : Clock W) (w : W) :
    (∀ sub iss : Name,
      (defaultIntermediateTemplate now sub iss w).1.MaxPathLen = 0 ∧
      (defaultIntermediateTemplate now sub iss w).1.MaxPathLenZero = false) ∧
    (∀ (wpk : PublicKey → Op) (csr : CertificateRequest) (pub : PublicKey) (iss : Certificate)
        (issPriv : PrivateKey) (withOps : List Op),
      csr.PublicKey = some pub →
      ∃ c : NewProfileCall Op,
        HandsToNewProfile
          (fun _ np => NewIntermediateProfileWithCSR now np wpk csr iss issPriv withOps)
          w c (now w).2 ∧
        c.sub.MaxPathLen
          = (defaultIntermediateTemplate now csr.Subject iss.Subject w).1.MaxPathLen ∧
        c.sub.MaxPathLenZero
          = (defaultIntermediateTemplate now csr.Subject iss.Subject w).1.MaxPathLenZero ∧
        c.sub.MaxPathLen = 0 ∧ c.sub.MaxPathLenZero = false) := by
  refine ⟨fun sub iss => ⟨rfl, rfl⟩, ?_⟩
  intro wpk csr pub iss issPriv withOps h
  exact ⟨_, NewIntermediateProfileWithCSR_hands now wpk csr iss issPriv withOps w pub h,
    rfl, rfl, rfl, rfl⟩

/-- Witness of C8 on the sample request. -/
theorem intermediate_template_path_length_witness :
    sampleCSR.PublicKey = some { raw := [1, 2, 3] } ∧
    ∃ c : NewProfileCall WithOption,
      HandsToNewProfile
        (fun _ np => NewIntermediateProfileWithCSR sampleClock np WithPublicKey sampleCSR
          sampleRoot sampleRootKey [])
        0 c (sampleClock 0).2 ∧
      c.sub.MaxPathLen
        = (defaultIntermediateTemplate sampleClock sampleCSR.Subject sampleRoot.Subject
            0).1.MaxPathLen ∧
      c.sub.MaxPathLenZero
        = (defaultIntermediateTemplate sampleClock sampleCSR.Subject sampleRoot.Subject
            0).1.MaxPathLenZero ∧
      c.sub.MaxPathLen = 0 ∧ c.sub.MaxPathLenZero = false :=
  ⟨rfl, (intermediate_template_path_length sampleClock 0).2 WithPublicKey sampleCSR
    { raw := [1, 2, 3] } sampleRoot sampleRootKey [] rfl⟩

/-- C9: when the construction timestamp is a well-formed time whose second count
can still take ten years more, `NotAfter` is strictly after `NotBefore` in the
default intermediate template, in the template `NewIntermediateProfile` hands to
`newProfile` and in the one `NewIntermediateProfileWithCSR` hands over for a
request with a public key. -/
theorem intermediate_template_validity_window {W Op : Type} (now : Clock W) (w : W)
    (hwf : (now w).1.WellFormed) (hfit : (now w).1.sec + 315360000 ≤ maxInt64) :
    (∀ sub iss : Name,
      (defaultIntermediateTemplate now sub iss w).1.NotAfter.After
        (defaultIntermediateTemplate now sub iss w).1.NotBefore = true) ∧
    (∀ (name : String) (iss : Certificate) (issPriv : PrivateKey) (withOps : List Op),
      ∃ c : NewProfileCall Op,
        HandsToNewProfile (fun _ np => NewIntermediateProfile now np name iss issPriv withOps)
          w c (now w).2 ∧
        c.sub.NotAfter.After c.sub.NotBefore = true) ∧
    (∀ (wpk : PublicKey → Op) (csr : CertificateRequest) (pub : PublicKey) (iss : Certificate)
        (issPriv : PrivateKey) (withOps : List Op),
      csr.PublicKey = some pub →
      ∃ c : NewProfileCall Op,
        HandsToNewProfile
          (fun _ np => NewIntermediateProfileWithCSR now np wpk csr iss issPriv withOps)
          w c (now w).2 ∧
        c.sub.NotAfter.After c.sub.NotBefore = true) := by
  have key := Time.After_Add_validity (now w).1 hwf hfit
  refine ⟨fun sub iss => key, ?_, ?_⟩
  · intro name iss issPriv withOps
    exact ⟨_, NewIntermediateProfile_hands now name iss issPriv withOps w, key⟩
  · intro wpk csr pub iss issPriv withOps h
    exact ⟨_, NewIntermediateProfileWithCSR_hands now wpk csr iss issPriv withOps w pub h, key⟩

/-- Witness of C9 at the first reading of the sample clock, for the plain factory
and for the sample request. -/
theorem intermediate_template_validity_window_witness :
    ((sampleClock 0).1.WellFormed ∧ (sampleClock 0).1.sec + 315360000 ≤ maxInt64) ∧
    (∃ c : NewProfileCall WithOption,
      HandsToNewProfile
        (fun _ np => NewIntermediateProfile sampleClock np "Example Intermediate CA" sampleRoot
          sampleRootKey [])
        0 c (sampleClock 0).2 ∧
      c.sub.NotAfter.After c.sub.NotBefore = true) ∧
    (∃ c : NewProfileCall WithOption,
      HandsToNewProfile
        (fun _ np => NewIntermediateProfileWithCSR sampleClock np WithPublicKey sampleCSR
          sampleRoot sampleRootKey [])
        0 c (sampleClock 0).2 ∧
      c.sub.NotAfter.After c.sub.NotBefore = true) :=
  ⟨⟨by decide, by decide⟩,
   (intermediate_template_validity_window sampleClock 0 (by decide) (by decide)).2.1
     "Example Intermediate CA" sampleRoot sampleRootKey [],
   (intermediate_template_validity_window sampleClock 0 (by decide) (by decide)).2.2
     WithPublicKey sampleCSR { raw := [1, 2, 3] } sampleRoot sampleRootKey [] rfl⟩

/-! ## The mutator list -/

theorem applyOps_append (ops more : List WithOption) (p : BaseProfile) :
    applyOps (ops ++ more) p = (applyOps ops p).bind (applyOps more) := by
  induction ops generalizing p with
  | nil => rfl
  | cons op rest ih =>
    simp only [List.cons_append, applyOps]
    cases op p with
    | error e => rfl
    | ok q => exact ih q

theorem applyOps_then_public_key (ops : List WithOption) (pub : PublicKey) (p : BaseProfile) :
    applyOps (ops ++ [WithPublicKey pub]) p
      = (applyOps ops p).map (fun q => { q with subjectPublicKey := some pub }) := by
  rw [applyOps_append]
  cases applyOps ops p with
  | error e => rfl
  | ok q => rfl

/-- C10: for a request with a public key, the mutator list that
`NewIntermediateProfileWithCSR` hands to `newProfile` is the list of the caller, in
its order, followed by one more mutator, `WithPublicKey` of the key of the request,
which is its last element at position `n`.  With mutators applied in order, the
chain handed over fails exactly when the list of the caller fails, with the same
error, and otherwise ends with the key of the request as subject public key,
whatever keys the caller set. -/
theorem NewIntermediateProfileWithCSR_mutators {W : Type} (now : Clock W)
    (csr : CertificateRequest) (iss : Certificate) (issPriv : PrivateKey) (w : W)
    (pub : PublicKey) (h : csr.PublicKey = some pub) :
    (∀ (Op : Type) (wpk : PublicKey → Op) (withOps : List Op),
      ∃ c : NewProfileCall Op,
        HandsToNewProfile
          (fun _ np => NewIntermediateProfileWithCSR now np wpk csr iss issPriv withOps)
          w c (now w).2 ∧
        c.withOps = withOps ++ [wpk pub] ∧
        c.withOps.length = withOps.length + 1 ∧
        c.withOps.take withOps.length = withOps ∧
        c.withOps.drop withOps.length = [wpk pub] ∧
        c.withOps.getLast? = some (wpk pub)) ∧
    (∀ withOps : List WithOption,
      ∃ c : NewProfileCall WithOption,
        HandsToNewProfile
          (fun _ np => NewIntermediateProfileWithCSR now np WithPublicKey csr iss issPriv
            withOps)
          w c (now w).2 ∧
        ∀ p : BaseProfile,
          applyOps c.withOps p
            = (applyOps withOps p).map (fun q => { q with subjectPublicKey := some pub }) ∧
          (∀ e, applyOps c.withOps p = Except.error e ↔ applyOps withOps p = Except.error e) ∧
          (∀ q, applyOps c.withOps p = Except.ok q → q.subjectPublicKey = some pub)) := by
  constructor
  · intro Op wpk withOps
    refine ⟨_, NewIntermediateProfileWithCSR_hands now wpk csr iss issPriv withOps w pub h,
      rfl, ?_, ?_, ?_, ?_⟩
    · simp
    · simp
    · simp
    · simp
  · intro withOps
    refine ⟨_, NewIntermediateProfileWithCSR_hands now WithPublicKey csr iss issPriv withOps w
      pub h, ?_⟩
    intro p
    have hchain := applyOps_then_public_key withOps pub p
    refine ⟨hchain, ?_, ?_⟩
    · intro e
      simp only [hchain]
      cases applyOps withOps p with
      | error e2 => simp [Except.map]
      | ok q => simp [Except.map]
    · intro q hq
      simp only [hchain] at hq
      cases hres : applyOps withOps p with
      | error e2 => simp [hres, Except.map] at hq
      | ok q2 =>
        simp only [hres, Except.map, Except.ok.injEq] at hq
        rw [← hq]

/-- Witness of C10: the sample request with a caller that sets another key; the list
handed over has two mutators and the chain ends with the key of the request. -/
theorem NewIntermediateProfileWithCSR_mutators_witness :
    sampleCSR.PublicKey = some { raw := [1, 2, 3] } ∧
    ∃ c : NewProfileCall WithOption,
      HandsToNewProfile
        (fun _ np => NewIntermediateProfileWithCSR sampleClock np WithPublicKey sampleCSR
          sampleRoot sampleRootKey [WithPublicKey { raw := [9, 9] }])
        0 c (sampleClock 0).2 ∧
      ∀ p : BaseProfile,
        applyOps c.withOps p
          = (applyOps [WithPublicKey { raw := [9, 9] }] p).map
              (fun q => { q with subjectPublicKey := some { raw := [1, 2, 3] } }) ∧
        (∀ e, applyOps c.withOps p = Except.error e
          ↔ applyOps [WithPublicKey { raw := [9, 9] }] p = Except.error e) ∧
        (∀ q, applyOps c.withOps p = Except.ok q
          → q.subjectPublicKey = some { raw := [1, 2, 3] }) :=
  ⟨rfl, (NewIntermediateProfileWithCSR_mutators sampleClock sampleCSR sampleRoot sampleRootKey 0
    { raw := [1, 2, 3] } rfl).2 [WithPublicKey { raw := [9, 9] }]⟩

end X509util

namespace Ssh

open X509util (GoError Errorf Wrap)

/-! ## The outcome of the check-host action, step by step -/

theorem checkHostAction_of_reports {W RetryFunc Client JWK TokenGen : Type}
    (c : Collaborators W RetryFunc Client JWK TokenGen)
    (hargs : ∀ ctx : Context, c.NumberOfArguments ctx 1 = none ↔ ctx.NArg = 1)
    (ctx : Context) (w : W) (b : Bool) (h : CheckReports c ctx w b) :
    (checkHostAction c ctx w).outcome
      = if b then Outcome.returned none else Outcome.exited 1 := by
  obtain ⟨client, token, w5, resp, w6, ⟨hn, retryFunc, w1, w2, id, w3, h1, h2, h3, ht⟩, h6, hb⟩ := h
  have h0 := (hargs ctx).2 hn
  rcases ht with ⟨hid, htok, hw⟩ | ⟨i, jwk, w4, hid, h4, h5⟩
  · subst hid htok hw
    cases b <;> simp [checkHostAction, h0, h1, h2, h3, h6, hb]
  · subst hid
    cases b <;> simp [checkHostAction, h0, h1, h2, h3, h4, h5, h6, hb]

theorem checkHostAction_of_failure {W RetryFunc Client JWK TokenGen : Type}
    (c : Collaborators W RetryFunc Client JWK TokenGen)
    (hargs : ∀ ctx : Context, c.NumberOfArguments ctx 1 = none ↔ ctx.NArg = 1)
    (ctx : Context) (w : W) (h : SomeStepFails c ctx w) :
    ∃ e, (checkHostAction c ctx w).outcome = Outcome.returned (some e) := by
  cases h0 : c.NumberOfArguments ctx 1 with
  | some err => exact ⟨err, by simp [checkHostAction, h0]⟩
  | none =>
    have hn : ctx.NArg = 1 := (hargs ctx).1 h0
    rcases h with hne | ⟨e, w1, h1⟩ | ⟨retryFunc, w1, e, w2, h1, h2⟩ |
      ⟨retryFunc, w1, client, w2, e, w3, h1, h2, h3⟩ |
      ⟨retryFunc, w1, client, w2, id, w3, h1, h2, h3, i, hid, hf⟩ |
      ⟨client, token, w5, e, w6, ⟨_, retryFunc, w1, w2, id, w3, h1, h2, h3, ht⟩, h6⟩
    · exact absurd hn hne
    · exact ⟨e, by simp [checkHostAction, h0, h1]⟩
    · exact ⟨e, by simp [checkHostAction, h0, h1, h2]⟩
    · exact ⟨Wrap e "error loading the deault x5c identity",
        by simp [checkHostAction, h0, h1, h2, h3]⟩
    · subst hid
      rcases hf with ⟨e, w4, h4⟩ | ⟨jwk, w4, e, w5, h4, h5⟩
      · exact ⟨e, by simp [checkHostAction, h0, h1, h2, h3, h4]⟩
      · exact ⟨Wrap e "error generating idenityt x5c token for /ssh/check-host request",
          by simp [checkHostAction, h0, h1, h2, h3, h4, h5]⟩
    · rcases ht with ⟨hid, htok, hw⟩ | ⟨i, jwk, w4, hid, h4, h5⟩
      · subst hid htok hw
        exact ⟨e, by simp [checkHostAction, h0, h1, h2, h3, h6]⟩
      · subst hid
        exact ⟨e, by simp [checkHostAction, h0, h1, h2, h3, h4, h5, h6]⟩

theorem checkHostAction_cases {W RetryFunc Client JWK TokenGen : Type}
    (c : Collaborators W RetryFunc Client JWK TokenGen) (ctx : Context) (w : W) :
    CheckReports c ctx w true ∨ CheckReports c ctx w false ∨ SomeStepFails c ctx w := by
  by_cases hn : ctx.NArg = 1
  swap
  · exact Or.inr (Or.inr (Or.inl hn))
  rcases h1 : c.loginOnUnauthorized ctx w with ⟨r1, w1⟩
  cases r1 with
  | error e1 => exact Or.inr (Or.inr (Or.inr (Or.inl ⟨e1, w1, h1⟩)))
  | ok retryFunc =>
  rcases h2 : c.NewClient ctx retryFunc w1 with ⟨r2, w2⟩
  cases r2 with
  | error e2 => exact Or.inr (Or.inr (Or.inr (Or.inr (Or.inl ⟨retryFunc, w1, e2, w2, h1, h2⟩))))
  | ok client =>
  rcases h3 : c.LoadDefaultIdentity w2 with ⟨r3, w3⟩
  cases r3 with
  | error e3 =>
    exact Or.inr (Or.inr (Or.inr (Or.inr (Or.inr (Or.inl
      ⟨retryFunc, w1, client, w2, e3, w3, h1, h2, h3⟩)))))
  | ok id =>
  have fromToken : ∀ token w5, TokenReady c id w3 token w5 →
      CheckReports c ctx w true ∨ CheckReports c ctx w false ∨ SomeStepFails c ctx w := by
    intro token w5 ht
    have hr : CheckReached c ctx w client token w5 :=
      ⟨hn, retryFunc, w1, w2, id, w3, h1, h2, h3, ht⟩
    rcases h6 : c.SSHCheckHost client ctx.First token w5 with ⟨r6, w6⟩
    cases r6 with
    | error e6 =>
      exact Or.inr (Or.inr (Or.inr (Or.inr (Or.inr (Or.inr (Or.inr
        ⟨client, token, w5, e6, w6, hr, h6⟩))))))
    | ok resp =>
      cases hb : resp.Exists with
      | true => exact Or.inl ⟨client, token, w5, resp, w6, hr, h6, hb⟩
      | false => exact Or.inr (Or.inl ⟨client, token, w5, resp, w6, hr, h6, hb⟩)
  have tokenFailed : TokenFails c id w3 →
      CheckReports c ctx w true ∨ CheckReports c ctx w false ∨ SomeStepFails c ctx w := by
    intro hf
    exact Or.inr (Or.inr (Or.inr (Or.inr (Or.inr (Or.inr (Or.inl
      ⟨retryFunc, w1, client, w2, id, w3, h1, h2, h3, hf⟩))))))
  cases id with
  | none => exact fromToken "" w3 (Or.inl ⟨rfl, rfl, rfl⟩)
  | some i =>
  rcases h4 : c.ParseKey i.Key w3 with ⟨r4, w4⟩
  cases r4 with
  | error e4 => exact tokenFailed ⟨i, rfl, Or.inl ⟨e4, w4, h4⟩⟩
  | ok jwk =>
  rcases h5 : c.Token (c.NewTokenGenerator jwk) i.Certificate jwk w4 with ⟨r5, w5⟩
  cases r5 with
  | error e5 => exact tokenFailed ⟨i, rfl, Or.inr ⟨jwk, w4, e5, w5, h4, h5⟩⟩
  | ok token => exact fromToken token w5 (Or.inr ⟨i, jwk, w4, rfl, h4, h5⟩)

/-! ## The claim about the check-host action -/

/-- C7: with an argument check that passes exactly for one argument, the action
returns no error (exit code 0) exactly when the check of the CA service is reached
and reports that the host exists, ends the process with code 1 exactly when the
check is reached and reports that the host does not exist, and returns an error
exactly when the argument count is not one or one of retry-function setup, client
creation, identity loading, key parsing, token generation or the check call fails;
one of the three always happens. -/
theorem checkHostAction_outcome {W RetryFunc Client JWK TokenGen : Type}
    (c : Collaborators W RetryFunc Client JWK TokenGen)
    (hargs : ∀ ctx : Context, c.NumberOfArguments ctx 1 = none ↔ ctx.NArg = 1)
    (ctx : Context) (w : W) :
    ((checkHostAction c ctx w).outcome = Outcome.returned none ↔ CheckReports c ctx w true) ∧
    ((checkHostAction c ctx w).outcome = Outcome.exited 1 ↔ CheckReports c ctx w false) ∧
    ((∃ e, (checkHostAction c ctx w).outcome = Outcome.returned (some e))
      ↔ SomeStepFails c ctx w) ∧
    ((checkHostAction c ctx w).outcome = Outcome.returned none ∨
      (checkHostAction c ctx w).outcome = Outcome.exited 1 ∨
      ∃ e, (checkHostAction c ctx w).outcome = Outcome.returned (some e)) := by
  have hT : CheckReports c ctx w true →
      (checkHostAction c ctx w).outcome = Outcome.returned none :=
    fun h => by simpa using checkHostAction_of_reports c hargs ctx w true h
  have hF : CheckReports c ctx w false →
      (checkHostAction c ctx w).outcome = Outcome.exited 1 :=
    fun h => by simpa using checkHostAction_of_reports c hargs ctx w false h
  have hE := checkHostAction_of_failure c hargs ctx w
  have hC := checkHostAction_cases c ctx w
  refine ⟨⟨?_, hT⟩, ⟨?_, hF⟩, ⟨?_, hE⟩, ?_⟩
  · intro ho
    rcases hC with h | h | h
    · exact h
    · rw [hF h] at ho
      cases ho
    · obtain ⟨e, he⟩ := hE h
      rw [he] at ho
      cases ho
  · intro ho
    rcases hC with h | h | h
    · rw [hT h] at ho
      cases ho
    · exact h
    · obtain ⟨e, he⟩ := hE h
      rw [he] at ho
      cases ho
  · rintro ⟨e, ho⟩
    rcases hC with h | h | h
    · rw [hT h] at ho
      cases ho
    · rw [hF h] at ho
      cases ho
    · exact h
  · rcases hC with h | h | h
    · exact Or.inl (hT h)
    · exact Or.inr (Or.inl (hF h))
    · exact Or.inr (Or.inr (hE h))

theorem sampleCollaborators_arguments (ctx : Context) :
    sampleCollaborators.NumberOfArguments ctx 1 = none ↔ ctx.NArg = 1 := by
  simp only [sampleCollaborators]
  split_ifs with ha hb
  · simp
    omega
  · simp
    omega
  · simp
    omega

/-- Witness of C7 with the sample collaborators: the host of the help text is known,
the action returns no error and the check reported it; the other host is not known,
the action ends the process with code 1 and the check reported that. -/
theorem checkHostAction_outcome_witness :
    (∀ ctx : Context, sampleCollaborators.NumberOfArguments ctx 1 = none ↔ ctx.NArg = 1) ∧
    ((checkHostAction sampleCollaborators sampleContext 0).outcome = Outcome.returned none ∧
      CheckReports sampleCollaborators sampleContext 0 true) ∧
    ((checkHostAction sampleCollaborators sampleContextUnknown 0).outcome = Outcome.exited 1 ∧
      CheckReports sampleCollaborators sampleContextUnknown 0 false) :=
  ⟨sampleCollaborators_arguments,
   ⟨by decide,
    (checkHostAction_outcome sampleCollaborators sampleCollaborators_arguments
      sampleContext 0).1.mp (by decide)⟩,
   ⟨by decide,
    (checkHostAction_outcome sampleCollaborators sampleCollaborators_arguments
      sampleContextUnknown 0).2.1.mp (by decide)⟩⟩

end Ssh
